import Mathlib

/-!
Verification of `scripts/github-storage/generate-manifest.py`.

The script is a one-shot batch transform: it walks a content directory,
builds a manifest entry per eligible file and per directory carrying a
`.meta.json` descriptor, and serialises the result as JSON.

Shallow embedding conventions used throughout this file:

* Python strings are Lean `String`s; all character-level operations are
  implemented over `String.toList` with structural recursion so that every
  definition evaluates by kernel reduction.  Python's `str.strip`, `str.lower`
  and the `\s` class of `re` are modelled on their ASCII subset (the script
  only ever feeds them ASCII delimiters; non-ASCII whitespace never appears
  in the constructs the claims are about).
* A `pathlib.Path` produced by `rglob` is modelled as its list of components
  relative to the content root (`PyPath`).  `str(p.relative_to(root))` is the
  components joined with `"/"`, and `rel_path.split('/')` recovers exactly the
  component list, since path components are non-empty and slash-free.
* Filesystem and subprocess effects are explicit inputs: the outcome of the
  `git log` call, the state of a `.keys` sidecar / `.meta.json` descriptor
  (absent, present-but-invalid JSON, or a parsed JSON object), and the outcome
  of reading the file's text.  JSON descriptor files are modelled as JSON
  objects (the script's documented shape); `json.load` failure is the
  `unparseable` state, which the script treats as absence.
* Exceptions are `Except PyExc`: `subprocess.run` raises `FileNotFoundError`
  when the `git` executable is missing (not caught by the script's
  `except (CalledProcessError, ValueError)`), and `f.read()` raises
  `UnicodeDecodeError` on undecodable bytes (not caught by `except IOError`).
  An I/O failure while reading (`IOError`/`OSError`) is caught.
-/

/-! ## Character and string helpers (ASCII models of the Python primitives) -/

/-- ASCII model of Python's whitespace class (`str.strip` default set and
regex `\s`): space, tab, newline, carriage return, vertical tab, form feed. -/
def isPySpace (c : Char) : Bool :=
  c.toNat == 32 || c.toNat == 9 || c.toNat == 10 || c.toNat == 13 ||
  c.toNat == 11 || c.toNat == 12

/-- The colon character. -/
def colonChar : Char := Char.ofNat 58

/-- The double-quote character as a one-character string. -/
def dquoteS : String := String.singleton (Char.ofNat 34)

/-- The single-quote character as a one-character string. -/
def squoteS : String := String.singleton (Char.ofNat 39)

/-- Model of `s.startswith(pre)`. -/
def sStartsWith (s pre : String) : Bool := pre.toList.isPrefixOf s.toList

/-- Model of `s.endswith(suf)`. -/
def sEndsWith (s suf : String) : Bool := suf.toList.reverse.isPrefixOf s.toList.reverse

/-- Model of `s[n:]` for a nonnegative `n` (character count). -/
def sDrop (s : String) (n : Nat) : String := String.mk (s.toList.drop n)

/-- Model of `s[:-n]` (drop `n` characters from the right). -/
def sDropRight (s : String) (n : Nat) : String := String.mk ((s.toList.reverse.drop n).reverse)

/-- ASCII `str.lower` on one character. -/
def chLower (c : Char) : Char :=
  if 65 ≤ c.toNat && c.toNat ≤ 90 then Char.ofNat (c.toNat + 32) else c

/-- ASCII model of `str.lower`. -/
def sToLower (s : String) : String := String.mk (s.toList.map chLower)

/-- Model of `str.strip()` (both ends, ASCII whitespace). -/
def pyStrip (s : String) : String :=
  String.mk (((s.toList.dropWhile isPySpace).reverse.dropWhile isPySpace).reverse)

/-- Is the character a double or single quote?  Used for `strip('"\x27')`. -/
def isQuoteChar (c : Char) : Bool := c.toNat == 34 || c.toNat == 39

/-- Model of `str.strip('"\x27')`: strip any run of double/single quotes from both ends. -/
def stripQuotes (s : String) : String :=
  String.mk (((s.toList.dropWhile isQuoteChar).reverse.dropWhile isQuoteChar).reverse)

/-- Model of `str.split(sep)` for a one-character separator (the script only splits on
`'\n'`, `','` and `'/'`).  `split` of the empty string is `[""]`. -/
def splitChar (sep : Char) : List Char → List (List Char)
  | [] => [[]]
  | c :: cs =>
    let r := splitChar sep cs
    if c == sep then [] :: r
    else
      match r with
      | h :: t => (c :: h) :: t
      | [] => [[c]]

/-- Model of `str.split(sep)` on `String`s. -/
def sSplitChar (sep : Char) (s : String) : List String :=
  (splitChar sep s.toList).map String.mk

/-- Model of `"sep".join(parts)` / `str.join`. -/
def sIntercalate (sep : String) (parts : List String) : String :=
  String.mk (List.intercalate sep.toList (parts.map String.toList))

/-- A line consisting entirely of (ASCII) whitespace, possibly empty. -/
def allWsLine (l : String) : Bool := l.toList.all isPySpace

/-! ## `int(...)`: Python integer literal parsing

`int(s)` on an already-stripped string accepts an optional sign followed by
digits, with single underscores allowed between digits; anything else raises
`ValueError`. -/

/-- Digit tail of a Python int literal: digits with single underscores
strictly between digits. -/
def digitsU : List Char → Bool
  | [] => true
  | c :: cs =>
    if c == Char.ofNat 95 then
      match cs with
      | d :: cs2 => d.isDigit && digitsU cs2
      | [] => false
    else c.isDigit && digitsU cs

/-- A nonempty Python digit sequence (first character must be a digit). -/
def pyIntLit : List Char → Bool
  | [] => false
  | c :: rest => c.isDigit && digitsU rest

/-- Numeric value of a digit sequence, ignoring underscores. -/
def digitsVal (cs : List Char) : Nat :=
  cs.foldl (fun acc c => if c == Char.ofNat 95 then acc else acc * 10 + (c.toNat - 48)) 0

/-- Model of `int(s)` for an already-stripped string: `some n` on success, `none` when
`ValueError` would be raised. -/
def pyInt? (s : String) : Option Int :=
  match s.toList with
  | [] => none
  | c :: rest =>
    if c == Char.ofNat 43 then
      if pyIntLit rest then some (digitsVal rest) else none
    else if c == Char.ofNat 45 then
      if pyIntLit rest then some (-(digitsVal rest : Int)) else none
    else if pyIntLit (c :: rest) then some (digitsVal (c :: rest)) else none

/-! ## Frontmatter values and the insertion-ordered dict -/

/-- The Python values the script manipulates as frontmatter entries and as
inputs to `parse_date_to_timestamp`: ints, strings, booleans and lists of
strings.  (The hand-rolled YAML parser only ever produces `str`, `bool` and
`list`; `int` is in the type because `parse_date_to_timestamp` additionally
accepts integers, and `bool` is a subtype of `int` in Python.) -/
inductive PyVal where
  | int (n : Int)
  | str (s : String)
  | bool (b : Bool)
  | list (xs : List String)
deriving Repr, DecidableEq

/-- A Python `dict` with string keys, as an insertion-ordered association
list with unique keys. -/
abbrev FM := List (String × PyVal)

/-- Model of `d[k] = v` on a Python dict: overwriting an existing key keeps its
original position in the insertion order; a new key is appended. -/
def dictSet (d : FM) (k : String) (v : PyVal) : FM :=
  if d.any (fun kv => kv.1 == k) then
    d.map (fun kv => if kv.1 == k then (k, v) else kv)
  else d ++ [(k, v)]

/-- Model of `d.get(k)` / `k in d` combined: the value at `k`, if present. -/
def fmGet (d : FM) (k : String) : Option PyVal :=
  (d.find? (fun kv => kv.1 == k)).map (fun kv => kv.2)

/-! ## `parse_frontmatter`: the `---`-delimited block

`re.match(r'^---\s*\n(.*?)\n---\s*\n', content, re.DOTALL)` on the text seen
as newline-separated lines.  The greedy `\s*` after the opening `---` consumes
any following blank lines; the lazy group then ends at the earliest subsequent
`---`-plus-whitespace line that is itself followed by a newline.  When no such
closer exists for that maximal opening, the engine backtracks the opening
`\s*` one newline at a time, which can only ever expose a closer at the first
non-blank line: the fallback case below. -/

/-- A line that is `---` followed only by whitespace (an opening or closing
frontmatter delimiter line). -/
def isDelimLine (l : String) : Bool :=
  sStartsWith l ("---") && (l.toList.drop 3).all isPySpace

/-- Earliest index `j` with `lo ≤ j ≤ hi` whose line is a delimiter line. -/
def findCloser (lines : List String) (lo hi : Nat) : Option Nat :=
  (List.range lines.length).find? fun j =>
    decide (lo ≤ j) && decide (j ≤ hi) && isDelimLine (lines.getD j (""))

/-- Lines remaining after deleting the regex match that ends at closing line
`j`: the trailing greedy `\s*\n` additionally consumes any blank lines after
the closer, up to the last newline of that whitespace run. -/
def restAfter (lines : List String) (j : Nat) : List String :=
  let tl := lines.drop (j + 1)
  let m := (tl.takeWhile allWsLine).length
  if m = tl.length then
    match tl.getLast? with
    | some l => [l]
    | none => []
  else tl.drop m

/-- The frontmatter regex match on `content`, as
`(group-1 lines, lines after the match)`, or `none` when the regex does not
match. -/
def fmMatch (content : String) : Option (List String × List String) :=
  match sSplitChar (Char.ofNat 10) content with
  | [] => none
  | l0 :: rest =>
    if !isDelimLine l0 then none
    else
      let lines := l0 :: rest
      let n := rest.length + 1
      let B := (rest.takeWhile allWsLine).length
      let gstar := min (B + 1) (n - 1)
      match findCloser lines (gstar + 1) (n - 2) with
      | some j => some ((lines.drop gstar).take (j - gstar), restAfter lines j)
      | none =>
        if 1 ≤ B && B + 1 ≤ n - 2 && isDelimLine (lines.getD (B + 1) ("")) then
          some ((lines.drop B).take 1, restAfter lines (B + 1))
        else none

/-- Model of `key` of a stripped `key: value` line: the part before the first colon,
stripped. -/
def fmKeyOf (line : String) : String :=
  pyStrip (String.mk (line.toList.takeWhile (fun c => c != colonChar)))

/-- Model of `value` of a stripped `key: value` line: the part after the first colon,
stripped. -/
def fmValueOf (line : String) : String :=
  pyStrip (String.mk ((line.toList.dropWhile (fun c => c != colonChar)).drop 1))

/-- Items of an inline array value `[a, b]`: split the inside on commas, keep
the entries whose strip is nonempty, and strip quotes from each. -/
def inlineItems (value : String) : List String :=
  ((sSplitChar (Char.ofNat 44) (sDropRight (sDrop value 1) 1))).filterMap fun item =>
    if pyStrip item = ("") then none else some (stripQuotes (pyStrip item))

/-- The `if/elif` chain classifying a `key: value` pair: inline array, then
double-quoted, then single-quoted, then case-insensitive booleans, then the
blank value (start of a `- item` block), else a plain string. -/
def fmClassify (key value : String) (d : FM) : FM :=
  if sStartsWith value ("[") && sEndsWith value ("]") then
    dictSet d key (.list (inlineItems value))
  else if sStartsWith value dquoteS && sEndsWith value dquoteS then
    dictSet d key (.str (sDropRight (sDrop value 1) 1))
  else if sStartsWith value squoteS && sEndsWith value squoteS then
    dictSet d key (.str (sDropRight (sDrop value 1) 1))
  else if sToLower value = ("true") then dictSet d key (.bool true)
  else if sToLower value = ("false") then dictSet d key (.bool false)
  else if value = ("") then dictSet d key (.list [])
  else dictSet d key (.str value)

/-- One iteration of the `for line in yaml_content.split('\n')` loop.  Note
that a line containing a colon is treated as `key: value` even when it starts
with `- `, because the `':' in line` test comes first; the `- item`
continuation appends to the last key of the dict when that key holds a list. -/
def fmLine (d : FM) (raw : String) : FM :=
  if pyStrip raw = ("") then d
  else if sStartsWith (pyStrip raw) ("#") then d
  else if (pyStrip raw).toList.contains colonChar then
    fmClassify (fmKeyOf (pyStrip raw)) (fmValueOf (pyStrip raw)) d
  else if sStartsWith (pyStrip raw) ("- ") then
    match d.getLast? with
    | some kv =>
      match kv.2 with
      | .list xs =>
        dictSet d kv.1 (.list (xs ++ [stripQuotes (pyStrip (sDrop (pyStrip raw) 2))]))
      | _ => d
    | none => d
  else d

/-- Model of `parse_frontmatter`. -/
def parse_frontmatter (content : String) : FM :=
  match fmMatch content with
  | none => []
  | some (block, _) => block.foldl fmLine []

/-! ## `extract_title_from_heading`

`re.search(r'^#\s+(.+)$', rest, re.MULTILINE)` on the content with the
frontmatter match deleted.  `^` anchors at line starts; `\s+` may greedily run
across newlines, so the captured group is the rest of the line holding the
first non-whitespace character after the `#`; `.strip()` is applied to the
group.  When everything after a `#` is whitespace the group can still match a
whitespace-only stretch on one line (stripping to the empty string), which is
falsy for the caller. -/

/-- Match attempt for `\s+(.+)$` at the position just after a line-initial
`#`, where `t` is the remainder of that line and `ls` the following lines. -/
def headingAfterHash (t : String) (ls : List String) : Option String :=
  let r := t.toList.dropWhile isPySpace
  if r.length = 0 then
    match (ls.dropWhile allWsLine).head? with
    | some l => some (pyStrip (String.mk (l.toList.dropWhile isPySpace)))
    | none =>
      if 2 ≤ t.toList.length then some ("")
      else if ls.any (fun l => l != ("")) then some ("")
      else none
  else if r.length < t.toList.length then some (pyStrip (String.mk r))
  else none

/-- First line-anchored `#`-heading match in the given lines. -/
def findHeading : List String → Option String
  | [] => none
  | l :: ls =>
    if sStartsWith l ("#") then
      match headingAfterHash (sDrop l 1) ls with
      | some t => some t
      | none => findHeading ls
    else findHeading ls

/-- Model of `extract_title_from_heading`. -/
def extract_title_from_heading (content : String) : Option String :=
  let lines :=
    match fmMatch content with
    | some (_, rest) => rest
    | none => sSplitChar (Char.ofNat 10) content
  findHeading lines

example : parse_frontmatter ("---\ntitle: FM\n---\nbody\n") = [(("title"), PyVal.str ("FM"))] := by decide
example : parse_frontmatter ("# Hello\nbody") = [] := by decide
example : extract_title_from_heading ("# Hello\nbody") = some ("Hello") := by decide
example : extract_title_from_heading ("---\ntitle: x\n# inside\n---\n# real\n") = some ("real") := by decide
example : parse_frontmatter ("---\ntags:\n- a\n- b\n---\n") = [(("tags"), PyVal.list [("a"), ("b")])] := by decide
example : parse_frontmatter ("---\nflag: TRUE\nq: \"v\"\n---\n") = [(("flag"), PyVal.bool true), (("q"), PyVal.str ("v"))] := by decide

example : parse_frontmatter ("---\n\n---\nrest") = [] := by decide
example : fmMatch ("---\n\n---\nrest") = some ([("")], [("rest")]) := by decide
example : parse_frontmatter ("---\n---\nrest") = [] := by decide
example : fmMatch ("---\n---\nrest") = none := by decide
example : fmMatch ("---\ntitle: x\n---") = none := by decide
example : parse_frontmatter ("---\n\n\nkey: v\n---\nxx\n") = [(("key"), PyVal.str ("v"))] := by decide
example : fmMatch ("---\na\n---\n\n\n# H\n") = some ([("a")], [("# H"), ("")]) := by decide
example : fmMatch ("---\na\n---\n  \nx") = some ([("a")], [("x")]) := by decide
example : fmMatch ("---\na\n---\n") = some ([("a")], [("")]) := by decide
example : fmMatch ("---\n\n") = none := by decide
example : fmMatch ("----\nx\n---\n") = none := by decide
example : extract_title_from_heading ("#Hello\n# Real\n") = some ("Real") := by decide
example : extract_title_from_heading ("##  Sub\n# Top\n") = some ("Top") := by decide
example : extract_title_from_heading ("#\nHello\n") = some ("Hello") := by decide
example : extract_title_from_heading ("#   \n\n") = some ("") := by decide
example : extract_title_from_heading ("# \n# Real") = some ("# Real") := by decide
example : extract_title_from_heading ("x\n# Mid here \nrest") = some ("Mid here") := by decide
example : extract_title_from_heading ("#\n\n  \n") = some ("") := by decide
example : extract_title_from_heading ("#\n") = none := by decide

/-! ## `parse_date_to_timestamp`

`datetime.strptime` is modelled after CPython's `_strptime` regexes:
`%Y` is exactly four digits; `%m` is `1[0-2]|0[1-9]|[1-9]`; `%d` is
`3[01]|[12]\d|0[1-9]|[1-9]`; `%H` is `2[0-3]|[0-1]\d|\d`; `%M` is
`[0-5]\d|\d`; `%S` is `6[0-1]|[0-5]\d|\d`; the whole string must be
consumed.  The `datetime` constructor then rejects year 0, a day beyond the
month's length, and a leap second (`%S` of 60/61), raising `ValueError`,
which `parse_date_to_timestamp` turns into trying the next format.
`datetime.timestamp()` interprets the naive datetime in the local timezone;
the embedding fixes UTC (the claims only depend on which format wins and on
the override behaviour, not on the zone offset). -/

/-- Four mandatory digits (`%Y`). -/
def p4 : List Char → Option (Nat × List Char)
  | a :: b :: c :: d :: rest =>
    if a.isDigit && b.isDigit && c.isDigit && d.isDigit then
      some ((a.toNat - 48) * 1000 + (b.toNat - 48) * 100 + (c.toNat - 48) * 10 +
        (d.toNat - 48), rest)
    else none
  | _ => none

/-- One mandatory literal character. -/
def litC (c : Char) : List Char → Option (List Char)
  | x :: rest => if x == c then some rest else none
  | [] => none

/-- Model of `%m`: `1[0-2]|0[1-9]|[1-9]`, alternatives tried in order. -/
def pMonth : List Char → Option (Nat × List Char)
  | c1 :: c2 :: rest =>
    if c1 == Char.ofNat 49 && (c2.isDigit && c2.toNat - 48 ≤ 2) then
      some (10 + (c2.toNat - 48), rest)
    else if c1 == Char.ofNat 48 && c2.isDigit && c2 != Char.ofNat 48 then
      some (c2.toNat - 48, rest)
    else if c1.isDigit && c1 != Char.ofNat 48 then some (c1.toNat - 48, c2 :: rest)
    else none
  | [c1] => if c1.isDigit && c1 != Char.ofNat 48 then some (c1.toNat - 48, []) else none
  | [] => none

/-- Model of `%d`: `3[01]|[12]\d|0[1-9]|[1-9]`. -/
def pDay : List Char → Option (Nat × List Char)
  | c1 :: c2 :: rest =>
    if c1 == Char.ofNat 51 && (c2 == Char.ofNat 48 || c2 == Char.ofNat 49) then
      some (30 + (c2.toNat - 48), rest)
    else if (c1 == Char.ofNat 49 || c1 == Char.ofNat 50) && c2.isDigit then
      some ((c1.toNat - 48) * 10 + (c2.toNat - 48), rest)
    else if c1 == Char.ofNat 48 && c2.isDigit && c2 != Char.ofNat 48 then
      some (c2.toNat - 48, rest)
    else if c1.isDigit && c1 != Char.ofNat 48 then some (c1.toNat - 48, c2 :: rest)
    else none
  | [c1] => if c1.isDigit && c1 != Char.ofNat 48 then some (c1.toNat - 48, []) else none
  | [] => none

/-- Model of `%H`: `2[0-3]|[0-1]\d|\d`. -/
def pHour : List Char → Option (Nat × List Char)
  | c1 :: c2 :: rest =>
    if c1 == Char.ofNat 50 && (c2.isDigit && c2.toNat - 48 ≤ 3) then
      some (20 + (c2.toNat - 48), rest)
    else if (c1 == Char.ofNat 48 || c1 == Char.ofNat 49) && c2.isDigit then
      some ((c1.toNat - 48) * 10 + (c2.toNat - 48), rest)
    else if c1.isDigit then some (c1.toNat - 48, c2 :: rest)
    else none
  | [c1] => if c1.isDigit then some (c1.toNat - 48, []) else none
  | [] => none

/-- Model of `%M`: `[0-5]\d|\d`. -/
def pMin : List Char → Option (Nat × List Char)
  | c1 :: c2 :: rest =>
    if c1.isDigit && c1.toNat - 48 ≤ 5 && c2.isDigit then
      some ((c1.toNat - 48) * 10 + (c2.toNat - 48), rest)
    else if c1.isDigit then some (c1.toNat - 48, c2 :: rest)
    else none
  | [c1] => if c1.isDigit then some (c1.toNat - 48, []) else none
  | [] => none

/-- Model of `%S`: `6[0-1]|[0-5]\d|\d` (the regex admits leap seconds; the `datetime`
constructor rejects them afterwards). -/
def pSec : List Char → Option (Nat × List Char)
  | c1 :: c2 :: rest =>
    if c1 == Char.ofNat 54 && (c2 == Char.ofNat 48 || c2 == Char.ofNat 49) then
      some (60 + (c2.toNat - 48), rest)
    else if c1.isDigit && c1.toNat - 48 ≤ 5 && c2.isDigit then
      some ((c1.toNat - 48) * 10 + (c2.toNat - 48), rest)
    else if c1.isDigit then some (c1.toNat - 48, c2 :: rest)
    else none
  | [c1] => if c1.isDigit then some (c1.toNat - 48, []) else none
  | [] => none

/-- Gregorian leap year. -/
def isLeap (y : Nat) : Bool := y % 4 == 0 && (y % 100 != 0 || y % 400 == 0)

/-- Length of a month, as validated by the `datetime` constructor. -/
def daysInMonth (y m : Nat) : Nat :=
  if m == 2 then (if isLeap y then 29 else 28)
  else if m == 4 || m == 6 || m == 9 || m == 11 then 30
  else 31

/-- Days from 1970-01-01 to the given civil date (valid for `y ≥ 1`). -/
def daysFromCivil (y m d : Nat) : Int :=
  let yy := if m ≤ 2 then y - 1 else y
  let era := yy / 400
  let yoe := yy % 400
  let mp := if 3 ≤ m then m - 3 else m + 9
  let doy := (153 * mp + 2) / 5 + (d - 1)
  let doe := yoe * 365 + yoe / 4 - yoe / 100 + doy
  ((era * 146097 + doe : Nat) : Int) - 719468

/-- Unix timestamp of a civil datetime, with the naive datetime read as UTC. -/
def epochOf (y m d h mi s : Nat) : Int :=
  daysFromCivil y m d * 86400 + ((h * 3600 + mi * 60 + s : Nat) : Int)

/-- Model of `datetime.strptime(s, "%Y-%m-%d")` / `"%Y/%m/%d"` followed by the
constructor checks, yielding a timestamp. -/
def strpDate (sep : Char) (s : String) : Option Int :=
  match p4 s.toList with
  | none => none
  | some (y, r1) =>
    match litC sep r1 with
    | none => none
    | some r2 =>
      match pMonth r2 with
      | none => none
      | some (m, r3) =>
        match litC sep r3 with
        | none => none
        | some r4 =>
          match pDay r4 with
          | none => none
          | some (d, r5) =>
            if r5.isEmpty && 1 ≤ y && d ≤ daysInMonth y m then
              some (epochOf y m d 0 0 0)
            else none

/-- Model of `datetime.strptime(s, "%Y-%m-%dT%H:%M:%S")` followed by the constructor
checks, yielding a timestamp. -/
def strpDateTime (s : String) : Option Int :=
  match p4 s.toList with
  | none => none
  | some (y, r1) =>
    match litC (Char.ofNat 45) r1 with
    | none => none
    | some r2 =>
      match pMonth r2 with
      | none => none
      | some (m, r3) =>
        match litC (Char.ofNat 45) r3 with
        | none => none
        | some r4 =>
          match pDay r4 with
          | none => none
          | some (d, r5) =>
            match litC ('T') r5 with
            | none => none
            | some r6 =>
              match pHour r6 with
              | none => none
              | some (h, r7) =>
                match litC colonChar r7 with
                | none => none
                | some r8 =>
                  match pMin r8 with
                  | none => none
                  | some (mi, r9) =>
                    match litC colonChar r9 with
                    | none => none
                    | some r10 =>
                      match pSec r10 with
                      | none => none
                      | some (sec, r11) =>
                        if r11.isEmpty && 1 ≤ y && d ≤ daysInMonth y m && sec ≤ 59 then
                          some (epochOf y m d h mi sec)
                        else none

/-- The first of the three fixed formats: `"%Y-%m-%d"`. -/
def tsFormat1 (s : String) : Option Int := strpDate (Char.ofNat 45) s

/-- The second format: `"%Y-%m-%dT%H:%M:%S"`. -/
def tsFormat2 (s : String) : Option Int := strpDateTime s

/-- The third format: `"%Y/%m/%d"`. -/
def tsFormat3 (s : String) : Option Int := strpDate (Char.ofNat 47) s

/-- The `for fmt in formats` loop: first successful format wins. -/
def tryFormats (s : String) : Option Int :=
  match tsFormat1 s with
  | some t => some t
  | none =>
    match tsFormat2 s with
    | some t => some t
    | none => tsFormat3 s

/-! ## JSON values -/

/-- JSON values, used for `.keys` sidecars, `.meta.json` descriptors and the
manifest itself.  Objects keep field order (Python dicts and `json.dump`
preserve insertion order). -/
inductive JVal where
  | null
  | bool (b : Bool)
  | num (n : Int)
  | str (s : String)
  | arr (xs : List JVal)
  | obj (fields : List (String × JVal))
deriving Repr

/-- Lookup in a JSON object (`k in d` / `d[k]` / `d.get(k)`). -/
def jLookup (kvs : List (String × JVal)) (k : String) : Option JVal :=
  (kvs.find? (fun kv => kv.1 == k)).map (fun kv => kv.2)

/-- The values `parse_date_to_timestamp` can return, as JSON: an `int` is
returned unchanged; a `bool` satisfies `isinstance(value, int)` in Python and
is likewise returned unchanged; a string is tried against the three formats;
anything else gives `None`. -/
def parse_date_to_timestamp : PyVal → Option JVal
  | .int n => some (.num n)
  | .bool b => some (.bool b)
  | .str s => (tryFormats s).map (fun t => JVal.num t)
  | .list _ => none

/-- Conversion of parser values to JSON for serialisation (`json.dump` of the
values the frontmatter parser produces). -/
def pyToJ : PyVal → JVal
  | .str s => .str s
  | .bool b => .bool b
  | .int n => .num n
  | .list xs => .arr (xs.map JVal.str)

/-! ## Subprocess and exceptions: `get_git_modified_time` -/

/-- Exceptions that can escape the script's handlers. -/
inductive PyExc where
  | fileNotFoundError
  | unicodeDecodeError
deriving Repr, DecidableEq

/-- Outcome of `subprocess.run(['git', 'log', ...], check=True)`:
either the `git` executable is missing (`FileNotFoundError` from `run`
itself) or the process ran and exited with a code and stdout. -/
inductive SubprocessOutcome where
  | toolMissing
  | exit (code : Int) (stdout : String)
deriving Repr, DecidableEq

/-- The body of `get_git_modified_time` when the process ran: `check=True`
raises `CalledProcessError` on a non-zero exit, which is caught and yields
`None`; empty stripped stdout yields `None`; `int(...)` failure raises
`ValueError`, caught, `None`. -/
def gitParse (code : Int) (stdout : String) : Option Int :=
  if code ≠ 0 then none
  else if pyStrip stdout = ("") then none
  else pyInt? (pyStrip stdout)

/-- Model of `get_git_modified_time`: a missing `git` executable raises
`FileNotFoundError`, which is not in the `except` clause and propagates. -/
def get_git_modified_time : SubprocessOutcome → Except PyExc (Option Int)
  | .toolMissing => .error .fileNotFoundError
  | .exit code stdout => .ok (gitParse code stdout)

example : tryFormats ("2024-01-15") = some 1705276800 := by decide
example : tryFormats ("2024-01-15T10:30:00") = some 1705314600 := by decide
example : tryFormats ("2024/01/15") = some 1705276800 := by decide
example : tryFormats ("2024-02-31") = none := by decide
example : tryFormats ("2024-13-01") = none := by decide
example : tryFormats ("15-01-2024") = none := by decide
example : gitParse 0 (" 1700000000\n") = some 1700000000 := by decide
example : gitParse 128 ("") = none := by decide
example : gitParse 0 ("abc") = none := by decide

/-! ## Paths -/

/-- A path below the content root: its list of components.  Components are
non-empty and slash-free, so `str(p.relative_to(root))` is the components
joined by `"/"` and `rel_path.split('/')` recovers them. -/
abbrev PyPath := List String

/-- Model of `Path.name`: the final component. -/
def nameOf (p : PyPath) : String := p.getLastD ("")

/-- Model of `str(filepath.relative_to(content_dir))`. -/
def relPathStr (p : PyPath) : String := sIntercalate ("/") p

/-- Index of the last `.` in a name, if any. -/
def lastDotIdx : List Char → Option Nat
  | [] => none
  | c :: rest =>
    match lastDotIdx rest with
    | some i => some (i + 1)
    | none => if c == Char.ofNat 46 then some 0 else none

/-- Model of `Path.suffix`: `name[i:]` for the last dot index `i` when `0 < i` and the
dot is not the final character; otherwise the empty string. -/
def pySuffix (name : String) : String :=
  match lastDotIdx name.toList with
  | some i => if 0 < i && i + 1 < name.toList.length then sDrop name i else ("")
  | none => ("")

/-- Model of `Path.stem`: the name with its suffix removed. -/
def pyStem (name : String) : String :=
  if pySuffix name = ("") then name else sDropRight name (pySuffix name).toList.length

/-- Model of `EXTENSIONS`: the allowed (lower-case) suffixes. -/
def EXTENSIONS : List String :=
  [".md", ".pdf", ".png", ".jpg", ".jpeg", ".gif", ".webp", ".svg", ".link", ".enc"]

/-! ## Sidecar states -/

/-- State of a `<file>.keys` sidecar on disk: absent, present but not valid
JSON (`json.JSONDecodeError`/`IOError`, swallowed), or a parsed JSON object. -/
inductive KeysFileState where
  | absent
  | unparseable
  | object (kvs : List (String × JVal))

/-- Model of `load_keys_file`: `None` unless the sidecar exists and parses. -/
def load_keys_file : KeysFileState → Option (List (String × JVal))
  | .object kvs => some kvs
  | _ => none

/-- State of a directory's `.meta.json`. -/
inductive MetaFileState where
  | absent
  | unparseable
  | object (kvs : List (String × JVal))

/-- Model of `load_directory_meta`: `{}` unless the descriptor exists and parses. -/
def load_directory_meta : MetaFileState → List (String × JVal)
  | .object kvs => kvs
  | _ => []

/-- Outcome of `open(filepath).read()`: the decoded text, an `IOError`
(caught by `process_file`), or a `UnicodeDecodeError` (not caught). -/
inductive ReadOutcome where
  | ok (content : String)
  | ioError
  | decodeError

/-! ## `process_file` -/

/-- A manifest file entry.  `modified` is a JSON value because the script can
store `None` (→ `null`), an `int`, or — via a boolean frontmatter `modified`
key — a `bool` there; `title` likewise carries whatever value the sidecar or
frontmatter supplied. -/
structure Entry where
  path : String
  title : JVal
  size : Nat
  modified : JVal
  tags : List JVal
  encryption : Option (List (String × JVal))
deriving Repr

/-- Model of `entry['modified']` from the git timestamp. -/
def jOfTime : Option Int → JVal
  | some n => .num n
  | none => .null

/-- The entry dict as first constructed: path, stem as title, size, git
timestamp, no tags. -/
def defaultEntry (p : PyPath) (sz : Nat) (mtime : Option Int) : Entry :=
  { path := relPathStr p
    title := .str (pyStem (nameOf p))
    size := sz
    modified := jOfTime mtime
    tags := []
    encryption := none }

/-- Sidecar branch, title: `if 'title' in keys_data`. -/
def applyKeysTitle (e : Entry) (kvs : List (String × JVal)) : Entry :=
  match jLookup kvs ("title") with
  | some t => { e with title := t }
  | none => e

/-- Sidecar branch, tags: `if 'tags' in keys_data and isinstance(..., list)`. -/
def applyKeysTags (e : Entry) (kvs : List (String × JVal)) : Entry :=
  match jLookup kvs ("tags") with
  | some (.arr xs) => { e with tags := xs }
  | _ => e

/-- Sidecar branch, encryption block: `algorithm` and `wrapped_keys` when
present; attached only when non-empty. -/
def applyKeysEnc (e : Entry) (kvs : List (String × JVal)) : Entry :=
  let enc :=
    (match jLookup kvs ("algorithm") with
     | some a => [(("algorithm"), a)]
     | none => []) ++
    (match jLookup kvs ("wrapped_keys") with
     | some w => [(("wrapped_keys"), w)]
     | none => [])
  if enc.isEmpty then e else { e with encryption := some enc }

/-- The whole `if keys_data:` branch body. -/
def applyKeys (e : Entry) (kvs : List (String × JVal)) : Entry :=
  applyKeysEnc (applyKeysTags (applyKeysTitle e kvs) kvs) kvs

/-- Markdown branch, title: frontmatter `title` wins; otherwise a truthy
first heading; otherwise the stem already in the entry. -/
def applyFMTitle (e : Entry) (fm : FM) (content : String) : Entry :=
  match fmGet fm ("title") with
  | some t => { e with title := pyToJ t }
  | none =>
    match extract_title_from_heading content with
    | some h => if h = ("") then e else { e with title := .str h }
    | none => e

/-- Markdown branch, tags: frontmatter `tags` when it is a list. -/
def applyFMTags (e : Entry) (fm : FM) : Entry :=
  match fmGet fm ("tags") with
  | some (.list xs) => { e with tags := xs.map JVal.str }
  | _ => e

/-- Markdown branch, modified: a frontmatter `modified` key overrides the git
timestamp with `parse_date_to_timestamp`'s result (`None` → `null`). -/
def applyFMModified (e : Entry) (fm : FM) : Entry :=
  match fmGet fm ("modified") with
  | some v =>
    { e with modified :=
        match parse_date_to_timestamp v with
        | some j => j
        | none => .null }
  | none => e

/-- The whole markdown-with-content enrichment. -/
def applyFrontmatter (e : Entry) (content : String) : Entry :=
  applyFMModified
    (applyFMTags (applyFMTitle e (parse_frontmatter content) content)
      (parse_frontmatter content))
    (parse_frontmatter content)

/-- The `elif ... == '.md'` branch: parse the content when readable; on
`IOError` keep the defaults (`pass`); a decode error propagates; non-markdown
files keep the defaults. -/
def mdBranch (e : Entry) (sfx : String) (read : ReadOutcome) : Except PyExc (Option Entry) :=
  if sfx = (".md") then
    match read with
    | .ok content => .ok (some (applyFrontmatter e content))
    | .ioError => .ok (some e)
    | .decodeError => .error .unicodeDecodeError
  else .ok (some e)

/-- Model of `process_file`.  The checks happen in source order: `.keys` skip,
extension filter, hidden-component skip, then the entry defaults (invoking
git), then the sidecar branch (`if keys_data:` — an empty parsed object is
falsy and falls through to the markdown branch), then the markdown branch. -/
def process_file (p : PyPath) (sz : Nat) (git : SubprocessOutcome)
    (keys : KeysFileState) (read : ReadOutcome) : Except PyExc (Option Entry) :=
  if sToLower (pySuffix (nameOf p)) = (".keys") then .ok none
  else if EXTENSIONS.contains (sToLower (pySuffix (nameOf p))) then
    if p.any (fun part => sStartsWith part (".")) then .ok none
    else
      match get_git_modified_time git with
      | .error e => .error e
      | .ok mtime =>
        match load_keys_file keys with
        | some kvs =>
          if kvs.isEmpty then mdBranch (defaultEntry p sz mtime) (sToLower (pySuffix (nameOf p))) read
          else .ok (some (applyKeys (defaultEntry p sz mtime) kvs))
        | none => mdBranch (defaultEntry p sz mtime) (sToLower (pySuffix (nameOf p))) read
  else .ok none

/-! ## `process_directory_meta` -/

/-- A manifest directory entry; absent descriptor keys serialise as `null`. -/
structure DirEntry where
  path : String
  title : JVal
  tags : JVal
  description : JVal
  icon : JVal
  thumbnail : JVal
deriving Repr

/-- Model of `process_directory_meta`, over the raw relative path (`"."` for the
content root itself), the directory name, and the descriptor state.  An
empty metadata dict (absent, unparseable, or parsed-empty descriptor) is
falsy: no entry. -/
def process_directory_meta (relRaw : String) (dirName : String)
    (meta : MetaFileState) : Option DirEntry :=
  let m := load_directory_meta meta
  if m.isEmpty then none
  else
    some
      { path := if relRaw = (".") then ("") else relRaw
        title :=
          (jLookup m ("title")).getD
            (.str (if (if relRaw = (".") then ("") else relRaw) = ("") then ("Home") else dirName))
        tags := (jLookup m ("tags")).getD (.arr [])
        description := (jLookup m ("description")).getD .null
        icon := (jLookup m ("icon")).getD .null
        thumbnail := (jLookup m ("thumbnail")).getD .null }

/-! ## `json.dump(manifest, f, indent=2, ensure_ascii=False)` -/

/-- Lower-case hex digit. -/
def hexDigit (n : Nat) : Char :=
  if n < 10 then Char.ofNat (48 + n) else Char.ofNat (87 + n)

/-- JSON escape of one character (`ensure_ascii=False`: only the mandatory
escapes plus control characters). -/
def escapeChar (c : Char) : String :=
  if c.toNat == 34 then String.mk [Char.ofNat 92, Char.ofNat 34]
  else if c.toNat == 92 then String.mk [Char.ofNat 92, Char.ofNat 92]
  else if c.toNat == 10 then String.mk [Char.ofNat 92, ('n')]
  else if c.toNat == 9 then String.mk [Char.ofNat 92, ('t')]
  else if c.toNat == 13 then String.mk [Char.ofNat 92, ('r')]
  else if c.toNat == 8 then String.mk [Char.ofNat 92, ('b')]
  else if c.toNat == 12 then String.mk [Char.ofNat 92, ('f')]
  else if c.toNat < 32 then
    String.mk ([Char.ofNat 92, ('u'), ('0'), ('0'), hexDigit (c.toNat / 16), hexDigit (c.toNat % 16)])
  else String.singleton c

/-- A JSON string literal. -/
def jstr (s : String) : String :=
  dquoteS ++ String.join (s.toList.map escapeChar) ++ dquoteS

/-- Indentation at nesting level `lvl` with `indent=2`. -/
def indentStr (lvl : Nat) : String := String.mk (List.replicate (lvl * 2) (' '))

mutual

/-- Model of `json.dump` with `indent=2`, `ensure_ascii=False` and default separators. -/
def jdump : JVal → Nat → String
  | .null, _ => ("null")
  | .bool true, _ => ("true")
  | .bool false, _ => ("false")
  | .num n, _ => toString n
  | .str s, _ => jstr s
  | .arr [], _ => ("[]")
  | .arr (x :: xs), lvl =>
    ("[\n") ++ jdumpItems (x :: xs) (lvl + 1) ++ ("\n") ++ indentStr lvl ++ ("]")
  | .obj [], _ => ("\x7b\x7d")
  | .obj (f :: fs), lvl =>
    ("\x7b\n") ++ jdumpFields (f :: fs) (lvl + 1) ++ ("\n") ++ indentStr lvl ++ ("\x7d")

/-- Array items, one per line, comma-separated. -/
def jdumpItems : List JVal → Nat → String
  | [], _ => ("")
  | [x], lvl => indentStr lvl ++ jdump x lvl
  | x :: y :: xs, lvl => indentStr lvl ++ jdump x lvl ++ (",\n") ++ jdumpItems (y :: xs) lvl

/-- Object fields, one per line, `": "` key separator. -/
def jdumpFields : List (String × JVal) → Nat → String
  | [], _ => ("")
  | [kv], lvl => indentStr lvl ++ jstr kv.1 ++ (": ") ++ jdump kv.2 lvl
  | kv :: g :: fs, lvl =>
    indentStr lvl ++ jstr kv.1 ++ (": ") ++ jdump kv.2 lvl ++ (",\n") ++ jdumpFields (g :: fs) lvl

end

/-- A file entry as the JSON object `json.dump` sees (dict insertion order). -/
def entryJson (e : Entry) : JVal :=
  .obj
    ([(("path"), JVal.str e.path), (("title"), e.title), (("size"), JVal.num (e.size : Int)),
      (("modified"), e.modified), (("tags"), JVal.arr e.tags)] ++
      (match e.encryption with
       | some enc => [(("encryption"), JVal.obj enc)]
       | none => []))

/-- A directory entry as the JSON object `json.dump` sees. -/
def dirEntryJson (e : DirEntry) : JVal :=
  .obj
    [(("path"), JVal.str e.path), (("title"), e.title), (("tags"), e.tags),
     (("description"), e.description), (("icon"), e.icon), (("thumbnail"), e.thumbnail)]

/-- The manifest object. -/
def manifestJson (files : List Entry) (dirs : List DirEntry) : JVal :=
  .obj
    [(("files"), JVal.arr (files.map entryJson)),
     (("directories"), JVal.arr (dirs.map dirEntryJson))]

/-! ## `main` -/

/-- The filesystem and environment a run observes.  `listing` is what
`content_dir.rglob('*')` yields, in whatever order the OS reports it (the
script sorts it); the remaining fields give each path's observable state and
the outcome of the per-path `git log` query. -/
structure FS where
  rootExists : Bool
  rootName : String
  rootMeta : MetaFileState
  listing : List PyPath
  isFile : PyPath → Bool
  isDir : PyPath → Bool
  size : PyPath → Nat
  git : PyPath → SubprocessOutcome
  keys : PyPath → KeysFileState
  read : PyPath → ReadOutcome
  meta : PyPath → MetaFileState

/-- Model of `sorted(content_dir.rglob('*'))`: paths compare like Python `Path`s, by
their component tuples (lexicographically, components by string order). -/
def sortedWalk (l : List PyPath) : List PyPath :=
  l.insertionSort (fun a b => a ≤ b)

/-- The `for filepath in sorted(...)` file loop; an uncaught exception from
`process_file` aborts the run. -/
def collectFiles (fs : FS) : List PyPath → Except PyExc (List Entry)
  | [] => .ok []
  | p :: ps =>
    if fs.isFile p && nameOf p != (".meta.json") then
      match process_file p (fs.size p) (fs.git p) (fs.keys p) (fs.read p) with
      | .error e => .error e
      | .ok entry? =>
        match collectFiles fs ps with
        | .error e => .error e
        | .ok rest =>
          .ok
            (match entry? with
             | some e => e :: rest
             | none => rest)
    else collectFiles fs ps

/-- The directory loop: `rglob` never yields the root itself, so the root's
descriptor is checked separately afterwards and its entry appended last. -/
def collectDirs (fs : FS) (walk : List PyPath) : List DirEntry :=
  walk.filterMap fun p =>
    if fs.isDir p then process_directory_meta (relPathStr p) (nameOf p) (fs.meta p)
    else none

/-- Result of one run: no manifest when the root is missing, a crash on an
uncaught exception, or the manifest file's exact contents. -/
inductive RunResult where
  | noRoot
  | crashed (e : PyExc)
  | wrote (manifest : String)
deriving Repr

/-- Model of `main`. -/
def runMain (fs : FS) : RunResult :=
  if !fs.rootExists then .noRoot
  else
    match collectFiles fs (sortedWalk fs.listing) with
    | .error e => .crashed e
    | .ok files =>
      let dirs := collectDirs fs (sortedWalk fs.listing)
      let dirs2 :=
        match process_directory_meta (".") fs.rootName fs.rootMeta with
        | some e => dirs ++ [e]
        | none => dirs
      .wrote (jdump (manifestJson files dirs2) 0)

/-! ## Helper lemmas about the entry-building pieces -/

theorem applyKeysTitle_title (e : Entry) (kvs : List (String × JVal)) :
    (applyKeysTitle e kvs).title = (jLookup kvs ("title")).getD e.title := by
  rcases h : jLookup kvs ("title") with _ | t <;> simp [applyKeysTitle, h]

theorem applyKeysTags_title (e : Entry) (kvs : List (String × JVal)) :
    (applyKeysTags e kvs).title = e.title := by
  rcases h : jLookup kvs ("tags") with _ | v
  · simp [applyKeysTags, h]
  · cases v <;> simp [applyKeysTags, h]

theorem applyKeysEnc_title (e : Entry) (kvs : List (String × JVal)) :
    (applyKeysEnc e kvs).title = e.title := by
  simp only [applyKeysEnc]
  split <;> rfl

theorem applyKeys_title (e : Entry) (kvs : List (String × JVal)) :
    (applyKeys e kvs).title = (jLookup kvs ("title")).getD e.title := by
  unfold applyKeys
  rw [applyKeysEnc_title, applyKeysTags_title, applyKeysTitle_title]

theorem applyKeysTitle_tags (e : Entry) (kvs : List (String × JVal)) :
    (applyKeysTitle e kvs).tags = e.tags := by
  rcases h : jLookup kvs ("title") with _ | t <;> simp [applyKeysTitle, h]

theorem applyKeysTags_tags (e : Entry) (kvs : List (String × JVal)) :
    (applyKeysTags e kvs).tags =
      (match jLookup kvs ("tags") with
       | some (JVal.arr xs) => xs
       | _ => e.tags) := by
  rcases h : jLookup kvs ("tags") with _ | v
  · simp [applyKeysTags, h]
  · cases v <;> simp [applyKeysTags, h]

theorem applyKeysEnc_tags (e : Entry) (kvs : List (String × JVal)) :
    (applyKeysEnc e kvs).tags = e.tags := by
  simp only [applyKeysEnc]
  split <;> rfl

theorem applyKeys_tags (e : Entry) (kvs : List (String × JVal)) :
    (applyKeys e kvs).tags =
      (match jLookup kvs ("tags") with
       | some (JVal.arr xs) => xs
       | _ => e.tags) := by
  unfold applyKeys
  rw [applyKeysEnc_tags, applyKeysTags_tags]
  rcases h : jLookup kvs ("tags") with _ | v
  · simp [applyKeysTitle_tags]
  · cases v <;> simp [applyKeysTitle_tags]

theorem applyFMTitle_title (e : Entry) (fm : FM) (content : String) :
    (applyFMTitle e fm content).title =
      (match fmGet fm ("title") with
       | some t => pyToJ t
       | none =>
         match extract_title_from_heading content with
         | some h => if h = ("") then e.title else JVal.str h
         | none => e.title) := by
  rcases h1 : fmGet fm ("title") with _ | t
  · rcases h2 : extract_title_from_heading content with _ | hh
    · simp [applyFMTitle, h1, h2]
    · by_cases he : hh = ("") <;> simp [applyFMTitle, h1, h2, he]
  · simp [applyFMTitle, h1]

theorem applyFMTags_title (e : Entry) (fm : FM) :
    (applyFMTags e fm).title = e.title := by
  rcases h : fmGet fm ("tags") with _ | v
  · simp [applyFMTags, h]
  · cases v <;> simp [applyFMTags, h]

theorem applyFMModified_title (e : Entry) (fm : FM) :
    (applyFMModified e fm).title = e.title := by
  rcases h : fmGet fm ("modified") with _ | v <;> simp [applyFMModified, h]

theorem applyFrontmatter_title (e : Entry) (content : String) :
    (applyFrontmatter e content).title =
      (match fmGet (parse_frontmatter content) ("title") with
       | some t => pyToJ t
       | none =>
         match extract_title_from_heading content with
         | some h => if h = ("") then e.title else JVal.str h
         | none => e.title) := by
  unfold applyFrontmatter
  rw [applyFMModified_title, applyFMTags_title, applyFMTitle_title]

theorem applyFMTitle_modified (e : Entry) (fm : FM) (content : String) :
    (applyFMTitle e fm content).modified = e.modified := by
  rcases h1 : fmGet fm ("title") with _ | t
  · rcases h2 : extract_title_from_heading content with _ | hh
    · simp [applyFMTitle, h1, h2]
    · by_cases he : hh = ("") <;> simp [applyFMTitle, h1, h2, he]
  · simp [applyFMTitle, h1]

theorem applyFMTags_modified (e : Entry) (fm : FM) :
    (applyFMTags e fm).modified = e.modified := by
  rcases h : fmGet fm ("tags") with _ | v
  · simp [applyFMTags, h]
  · cases v <;> simp [applyFMTags, h]

theorem applyFMModified_modified (e : Entry) (fm : FM) :
    (applyFMModified e fm).modified =
      (match fmGet fm ("modified") with
       | some v =>
         (match parse_date_to_timestamp v with
          | some j => j
          | none => JVal.null)
       | none => e.modified) := by
  rcases h : fmGet fm ("modified") with _ | v <;> simp [applyFMModified, h]

theorem applyFrontmatter_modified (e : Entry) (content : String) :
    (applyFrontmatter e content).modified =
      (match fmGet (parse_frontmatter content) ("modified") with
       | some v =>
         (match parse_date_to_timestamp v with
          | some j => j
          | none => JVal.null)
       | none => e.modified) := by
  unfold applyFrontmatter
  rw [applyFMModified_modified]
  rcases h : fmGet (parse_frontmatter content) ("modified") with _ | v
  · simp [applyFMTags_modified, applyFMTitle_modified]
  · simp

/-! ## Reduction lemmas for `process_file` -/

/-- The sidecar is falsy for the `if keys_data:` test: missing, unparseable
(`load_keys_file` returned `None`), or parsed to an empty object. -/
def keysFalsy (k : KeysFileState) : Prop :=
  match k with
  | .object kvs => kvs = []
  | _ => True

theorem mdBranch_md_ok (e : Entry) (content : String) :
    mdBranch e (".md") (.ok content) = .ok (some (applyFrontmatter e content)) := by
  simp [mdBranch]

theorem process_file_md_reduce (p : PyPath) (sz : Nat) (c : Int) (o : String)
    (k : KeysFileState) (content : String)
    (hsfx : sToLower (pySuffix (nameOf p)) = (".md"))
    (hhid : p.any (fun part => sStartsWith part (".")) = false)
    (hkf : keysFalsy k) :
    process_file p sz (.exit c o) k (.ok content) =
      .ok (some (applyFrontmatter (defaultEntry p sz (gitParse c o)) content)) := by
  unfold process_file
  rw [hsfx]
  rw [if_neg (by decide)]
  rw [if_pos (by decide)]
  rw [hhid]
  rw [if_neg (by decide)]
  show (match load_keys_file k with
        | some kvs =>
          if kvs.isEmpty then mdBranch (defaultEntry p sz (gitParse c o)) (".md") (.ok content)
          else .ok (some (applyKeys (defaultEntry p sz (gitParse c o)) kvs))
        | none => mdBranch (defaultEntry p sz (gitParse c o)) (".md") (.ok content)) = _
  cases k with
  | absent => simp [load_keys_file, mdBranch]
  | unparseable => simp [load_keys_file, mdBranch]
  | object kvs =>
    have : kvs = [] := hkf
    subst this
    simp [load_keys_file, mdBranch]

theorem process_file_md_ioError (p : PyPath) (sz : Nat) (c : Int) (o : String)
    (k : KeysFileState)
    (hsfx : sToLower (pySuffix (nameOf p)) = (".md"))
    (hhid : p.any (fun part => sStartsWith part (".")) = false)
    (hkf : keysFalsy k) :
    process_file p sz (.exit c o) k .ioError =
      .ok (some (defaultEntry p sz (gitParse c o))) := by
  unfold process_file
  rw [hsfx]
  rw [if_neg (by decide)]
  rw [if_pos (by decide)]
  rw [hhid]
  rw [if_neg (by decide)]
  show (match load_keys_file k with
        | some kvs =>
          if kvs.isEmpty then mdBranch (defaultEntry p sz (gitParse c o)) (".md") .ioError
          else .ok (some (applyKeys (defaultEntry p sz (gitParse c o)) kvs))
        | none => mdBranch (defaultEntry p sz (gitParse c o)) (".md") .ioError) = _
  cases k with
  | absent => simp [load_keys_file, mdBranch]
  | unparseable => simp [load_keys_file, mdBranch]
  | object kvs =>
    have : kvs = [] := hkf
    subst this
    simp [load_keys_file, mdBranch]

theorem process_file_keys_reduce (p : PyPath) (sz : Nat) (c : Int) (o : String)
    (kvs : List (String × JVal)) (r : ReadOutcome)
    (hext : EXTENSIONS.contains (sToLower (pySuffix (nameOf p))) = true)
    (hhid : p.any (fun part => sStartsWith part (".")) = false)
    (hne : kvs ≠ []) :
    process_file p sz (.exit c o) (.object kvs) r =
      .ok (some (applyKeys (defaultEntry p sz (gitParse c o)) kvs)) := by
  have hnk : sToLower (pySuffix (nameOf p)) ≠ (".keys") := by
    intro h
    rw [h] at hext
    exact absurd hext (by decide)
  have hemp : kvs.isEmpty = false := by
    cases kvs with
    | nil => exact absurd rfl hne
    | cons a l => rfl
  unfold process_file
  rw [if_neg hnk, if_pos hext, hhid, if_neg (by decide)]
  show (match load_keys_file (.object kvs) with
        | some kvs2 =>
          if kvs2.isEmpty then
            mdBranch (defaultEntry p sz (gitParse c o)) (sToLower (pySuffix (nameOf p))) r
          else .ok (some (applyKeys (defaultEntry p sz (gitParse c o)) kvs2))
        | none => mdBranch (defaultEntry p sz (gitParse c o)) (sToLower (pySuffix (nameOf p))) r) = _
  simp only [load_keys_file, hemp, Bool.false_eq_true, if_false]

/-! ## Claim theorems -/

/-- C1 counterexample: when the `git` executable itself is absent,
`subprocess.run` raises `FileNotFoundError`, which the handler
(`except (CalledProcessError, ValueError)`) does not catch, so
`get_git_modified_time` raises instead of returning a null timestamp. -/
theorem c1_tool_absent_raises :
    get_git_modified_time .toolMissing = .error .fileNotFoundError ∧
    get_git_modified_time .toolMissing ≠ .ok none :=
  ⟨rfl, fun h => Except.noConfusion h⟩

/-- C1 (amended): for every file path, a failing version-control query —
non-zero exit (including an absent repository) or empty / non-numeric
output — yields a null timestamp without raising; only an absent `git`
executable raises. -/
theorem c1_git_failure_yields_none :
    (∀ (code : Int) (out : String), code ≠ 0 →
      get_git_modified_time (.exit code out) = .ok none) ∧
    (∀ out : String, pyInt? (pyStrip out) = none →
      get_git_modified_time (.exit 0 out) = .ok none) := by
  constructor
  · intro code out h
    simp [get_git_modified_time, gitParse, h]
  · intro out h
    by_cases hs : pyStrip out = ("")
    · simp [get_git_modified_time, gitParse, hs]
    · simp [get_git_modified_time, gitParse, hs, h]

/-- C1 witness: a non-zero exit and non-numeric stdout both give `None`. -/
theorem c1_witness :
    get_git_modified_time (.exit 128 ("")) = .ok none ∧
    get_git_modified_time (.exit 0 ("fatal: not a repo")) = .ok none :=
  ⟨c1_git_failure_yields_none.1 128 ("") (by decide),
   c1_git_failure_yields_none.2 ("fatal: not a repo") (by decide)⟩

/-- C2 counterexample: a sidecar that exists on disk and parses to the valid
empty JSON object is falsy for `if keys_data:`, so `process_file` falls
through to the markdown branch and takes the title from the file's
frontmatter — the existence of the sidecar does not by itself short-circuit
frontmatter parsing (the same happens for an unparseable sidecar). -/
theorem c2_sidecar_exists_frontmatter_used :
    process_file [("note.md")] 4 (.exit 1 ("")) (.object [])
        (.ok ("---\ntitle: FM\n---\nbody\n")) =
      .ok (some
        { path := ("note.md"), title := JVal.str ("FM"), size := 4,
          modified := JVal.null, tags := [], encryption := none }) ∧
    JVal.str ("FM") ≠ JVal.str ("note") := by
  refine ⟨rfl, ?_⟩
  intro h
  injection h with h2
  exact absurd h2 (by decide)

theorem process_file_toolMissing (p : PyPath) (sz : Nat) (k : KeysFileState)
    (r : ReadOutcome)
    (hext : EXTENSIONS.contains (sToLower (pySuffix (nameOf p))) = true)
    (hhid : p.any (fun part => sStartsWith part (".")) = false) :
    process_file p sz .toolMissing k r = .error .fileNotFoundError := by
  have hnk : sToLower (pySuffix (nameOf p)) ≠ (".keys") := by
    intro h
    rw [h] at hext
    exact absurd hext (by decide)
  unfold process_file
  rw [if_neg hnk, if_pos hext, hhid, if_neg (by decide)]
  rfl

/-- C2 (amended): when the sidecar exists and parses to a non-empty JSON
object, `process_file` never consults the file content (the result is
independent of the read outcome, so frontmatter and headings are never
parsed), and the entry's title and tags come only from that object or the
defaults.  A sidecar that is missing, unparseable, or an empty object falls
through to the markdown branch. -/
theorem c2_truthy_sidecar_shortcircuits (p : PyPath) (sz : Nat)
    (kvs : List (String × JVal)) (hne : kvs ≠ [])
    (hext : EXTENSIONS.contains (sToLower (pySuffix (nameOf p))) = true)
    (hhid : p.any (fun part => sStartsWith part (".")) = false) :
    (∀ (g : SubprocessOutcome) (r1 r2 : ReadOutcome),
      process_file p sz g (.object kvs) r1 = process_file p sz g (.object kvs) r2) ∧
    (∀ (c : Int) (o : String) (r : ReadOutcome),
      ∃ e, process_file p sz (.exit c o) (.object kvs) r = .ok (some e) ∧
        e.title = (jLookup kvs ("title")).getD (.str (pyStem (nameOf p))) ∧
        e.tags =
          (match jLookup kvs ("tags") with
           | some (JVal.arr xs) => xs
           | _ => [])) := by
  constructor
  · intro g r1 r2
    cases g with
    | toolMissing =>
      rw [process_file_toolMissing p sz _ r1 hext hhid,
        process_file_toolMissing p sz _ r2 hext hhid]
    | exit c o =>
      rw [process_file_keys_reduce p sz c o kvs r1 hext hhid hne,
        process_file_keys_reduce p sz c o kvs r2 hext hhid hne]
  · intro c o r
    refine ⟨applyKeys (defaultEntry p sz (gitParse c o)) kvs,
      process_file_keys_reduce p sz c o kvs r hext hhid hne, ?_, ?_⟩
    · rw [applyKeys_title]
      rfl
    · rw [applyKeys_tags]
      rfl

/-- C2 witness: a concrete non-empty sidecar object short-circuits. -/
theorem c2_witness :
    (∀ (g : SubprocessOutcome) (r1 r2 : ReadOutcome),
      process_file [("n.md")] 3 g (.object [(("title"), JVal.str ("S"))]) r1 =
        process_file [("n.md")] 3 g (.object [(("title"), JVal.str ("S"))]) r2) ∧
    (∀ (c : Int) (o : String) (r : ReadOutcome),
      ∃ e, process_file [("n.md")] 3 (.exit c o) (.object [(("title"), JVal.str ("S"))]) r =
          .ok (some e) ∧
        e.title =
          (jLookup [(("title"), JVal.str ("S"))] ("title")).getD
            (.str (pyStem (nameOf [("n.md")]))) ∧
        e.tags =
          (match jLookup [(("title"), JVal.str ("S"))] ("tags") with
           | some (JVal.arr xs) => xs
           | _ => [])) :=
  c2_truthy_sidecar_shortcircuits [("n.md")] 3 [(("title"), JVal.str ("S"))]
    (List.cons_ne_nil _ _) (by decide) (by decide)

/-- C3 counterexample: an eligible markdown file with an unreadable content
but a truthy `.keys` sidecar carrying a title gets that sidecar title, not
the filename-stem default, so the entry is not "built from the defaults". -/
theorem c3_sidecar_overrides_defaults :
    process_file [("a.md")] 5 (.exit 0 ("99")) (.object [(("title"), JVal.str ("K"))])
        .ioError =
      .ok (some
        { path := ("a.md"), title := JVal.str ("K"), size := 5,
          modified := JVal.num 99, tags := [], encryption := none }) ∧
    JVal.str ("K") ≠ JVal.str ("a") := by
  refine ⟨rfl, ?_⟩
  intro h
  injection h with h2
  exact absurd h2 (by decide)

/-- C3 (amended): for every eligible markdown file without a truthy `.keys`
sidecar, whose version-control query itself does not raise, a failed content
read (`IOError`) still produces the default entry — filename stem as title,
the given size, the version-control timestamp, empty tags — without raising;
frontmatter and heading extraction are skipped. -/
theorem c3_unreadable_md_defaults (p : PyPath) (sz : Nat) (c : Int) (o : String)
    (k : KeysFileState)
    (hsfx : sToLower (pySuffix (nameOf p)) = (".md"))
    (hhid : p.any (fun part => sStartsWith part (".")) = false)
    (hkf : keysFalsy k) :
    process_file p sz (.exit c o) k .ioError =
      .ok (some (defaultEntry p sz (gitParse c o))) :=
  process_file_md_ioError p sz c o k hsfx hhid hkf

/-- C3 witness: a concrete unreadable markdown file yields the defaults. -/
theorem c3_witness :
    process_file [("doc.md")] 9 (.exit 0 ("1700000000")) .absent .ioError =
      .ok (some (defaultEntry [("doc.md")] 9 (gitParse 0 ("1700000000")))) :=
  c3_unreadable_md_defaults [("doc.md")] 9 0 ("1700000000") .absent (by decide)
    (by decide) trivial

/-- C4: for an eligible markdown file with a falsy sidecar, the entry title
follows the precedence frontmatter `title` > first `#` heading (when truthy)
> filename stem. -/
theorem c4_title_precedence (p : PyPath) (sz : Nat) (c : Int) (o : String)
    (content : String)
    (hsfx : sToLower (pySuffix (nameOf p)) = (".md"))
    (hhid : p.any (fun part => sStartsWith part (".")) = false) :
    ∃ e, process_file p sz (.exit c o) .absent (.ok content) = .ok (some e) ∧
      (∀ t, fmGet (parse_frontmatter content) ("title") = some t → e.title = pyToJ t) ∧
      (∀ h, fmGet (parse_frontmatter content) ("title") = none →
        extract_title_from_heading content = some h → h ≠ ("") → e.title = JVal.str h) ∧
      (fmGet (parse_frontmatter content) ("title") = none →
        (extract_title_from_heading content = none ∨
          extract_title_from_heading content = some ("")) →
        e.title = JVal.str (pyStem (nameOf p))) := by
  refine ⟨_, process_file_md_reduce p sz c o .absent content hsfx hhid trivial, ?_, ?_, ?_⟩
  · intro t ht
    rw [applyFrontmatter_title, ht]
  · intro h h1 h2 h3
    rw [applyFrontmatter_title, h1, h2]
    simp [h3]
  · intro h1 h2
    rcases h2 with h2 | h2
    · rw [applyFrontmatter_title, h1, h2]
      rfl
    · rw [applyFrontmatter_title, h1, h2]
      simp [defaultEntry]

/-- C4 witness: no frontmatter, first line `# Hello`, title is `Hello`. -/
theorem c4_witness :
    (process_file [("hello.md")] 2 (.exit 1 ("")) .absent
        (.ok ("# Hello\nbody"))).map (Option.map Entry.title) =
      .ok (some (JVal.str ("Hello"))) := by
  obtain ⟨e, he, _, hh, _⟩ := c4_title_precedence [("hello.md")] 2 1 ("")
    ("# Hello\nbody") (by decide) (by decide)
  rw [he]
  simp only [Except.map, Option.map]
  rw [hh ("Hello") (by decide) (by decide) (by decide)]

/-- C5: edge-case policy of the frontmatter parser, per `key: value` line:
inline arrays aside, a double-quoted value is unquoted before single quotes
are considered (the inner single quotes survive); `true`/`false` are matched
on the lower-cased value; a blank value becomes an empty list; and a `- item`
line (no colon) is appended to the dict's most recently added key when that
key currently holds a list. -/
theorem c5_frontmatter_edge_cases :
    (∀ (d : FM) (key value : String),
      (sStartsWith value ("[") && sEndsWith value ("]")) = false →
      sStartsWith value dquoteS = true → sEndsWith value dquoteS = true →
      fmClassify key value d = dictSet d key (.str (sDropRight (sDrop value 1) 1))) ∧
    (∀ (d : FM) (key value : String),
      (sStartsWith value ("[") && sEndsWith value ("]")) = false →
      (sStartsWith value dquoteS && sEndsWith value dquoteS) = false →
      sStartsWith value squoteS = true → sEndsWith value squoteS = true →
      fmClassify key value d = dictSet d key (.str (sDropRight (sDrop value 1) 1))) ∧
    (∀ (d : FM) (key value : String),
      (sStartsWith value ("[") && sEndsWith value ("]")) = false →
      (sStartsWith value dquoteS && sEndsWith value dquoteS) = false →
      (sStartsWith value squoteS && sEndsWith value squoteS) = false →
      sToLower value = ("true") →
      fmClassify key value d = dictSet d key (.bool true)) ∧
    (∀ (d : FM) (key value : String),
      (sStartsWith value ("[") && sEndsWith value ("]")) = false →
      (sStartsWith value dquoteS && sEndsWith value dquoteS) = false →
      (sStartsWith value squoteS && sEndsWith value squoteS) = false →
      sToLower value = ("false") →
      fmClassify key value d = dictSet d key (.bool false)) ∧
    (∀ (d : FM) (key : String), fmClassify key ("") d = dictSet d key (.list [])) ∧
    (∀ (d : FM) (raw k : String) (xs : List String),
      pyStrip raw ≠ ("") →
      sStartsWith (pyStrip raw) ("#") = false →
      (pyStrip raw).toList.contains colonChar = false →
      sStartsWith (pyStrip raw) ("- ") = true →
      d.getLast? = some (k, PyVal.list xs) →
      fmLine d raw =
        dictSet d k (.list (xs ++ [stripQuotes (pyStrip (sDrop (pyStrip raw) 2))]))) := by
  refine ⟨?_, ?_, ?_, ?_, ?_, ?_⟩
  · intro d key value h0 h1 h2
    simp [fmClassify, h0, h1, h2]
  · intro d key value h0 h1 h2 h3
    simp [fmClassify, h0, h1, h2, h3]
  · intro d key value h0 h1 h2 h3
    simp [fmClassify, h0, h1, h2, h3]
  · intro d key value h0 h1 h2 h3
    simp [fmClassify, h0, h1, h2, h3]
  · intro d key
    rfl
  · intro d raw k xs hne hnh hcol hdash hlast
    simp only [fmLine, hne, if_neg, hnh, Bool.false_eq_true, if_false, hcol, hdash, if_true,
      hlast]

/-- C5 witness: a double-quoted value keeping its inner single quotes, an
upper-case boolean, a blank value, and a `- item` continuation. -/
theorem c5_witness :
    fmClassify ("k") ("\x22\x27hi\x27\x22") [] =
      dictSet [] ("k") (.str (sDropRight (sDrop ("\x22\x27hi\x27\x22") 1) 1)) ∧
    fmClassify ("f") ("TRUE") [] = dictSet [] ("f") (.bool true) ∧
    fmClassify ("g") ("False") [] = dictSet [] ("g") (.bool false) ∧
    fmClassify ("e") ("") [] = dictSet [] ("e") (.list []) ∧
    fmLine [(("tags"), PyVal.list [])] ("- a") =
      dictSet [(("tags"), PyVal.list [])] ("tags")
        (.list ([] ++ [stripQuotes (pyStrip (sDrop (pyStrip ("- a")) 2))])) :=
  ⟨c5_frontmatter_edge_cases.1 [] ("k") ("\x22\x27hi\x27\x22") (by decide) (by decide)
      (by decide),
   c5_frontmatter_edge_cases.2.2.1 [] ("f") ("TRUE") (by decide) (by decide) (by decide)
      (by decide),
   c5_frontmatter_edge_cases.2.2.2.1 [] ("g") ("False") (by decide) (by decide) (by decide)
      (by decide),
   c5_frontmatter_edge_cases.2.2.2.2.1 [] ("e"),
   c5_frontmatter_edge_cases.2.2.2.2.2 [(("tags"), PyVal.list [])] ("- a") ("tags") []
      (by decide) (by decide) (by decide) (by decide) (by decide)⟩

/-- C6: a frontmatter `modified` key overrides the version-control timestamp
via `parse_date_to_timestamp`; integers pass through unchanged; strings are
tried against the three fixed formats in order, first match winning. -/
theorem c6_modified_override :
    (∀ (p : PyPath) (sz : Nat) (c : Int) (o : String) (content : String) (v : PyVal),
      sToLower (pySuffix (nameOf p)) = (".md") →
      p.any (fun part => sStartsWith part (".")) = false →
      fmGet (parse_frontmatter content) ("modified") = some v →
      ∃ e, process_file p sz (.exit c o) .absent (.ok content) = .ok (some e) ∧
        e.modified =
          (match parse_date_to_timestamp v with
           | some j => j
           | none => JVal.null)) ∧
    (∀ n : Int, parse_date_to_timestamp (.int n) = some (.num n)) ∧
    (∀ s : String, parse_date_to_timestamp (.str s) =
      (match tsFormat1 s with
       | some t => some (JVal.num t)
       | none =>
         match tsFormat2 s with
         | some t => some (JVal.num t)
         | none => (tsFormat3 s).map (fun t => JVal.num t))) := by
  refine ⟨?_, fun n => rfl, ?_⟩
  · intro p sz c o content v hsfx hhid hv
    refine ⟨_, process_file_md_reduce p sz c o .absent content hsfx hhid trivial, ?_⟩
    rw [applyFrontmatter_modified, hv]
  · intro s
    unfold parse_date_to_timestamp tryFormats
    rcases h1 : tsFormat1 s with _ | t
    · rcases h2 : tsFormat2 s with _ | t <;> simp [h1, h2]
    · simp [h1]

/-- C6 witness: `modified: 2024-01-15` replaces a git timestamp of 123, and
an integer passes through. -/
theorem c6_witness :
    (process_file [("d.md")] 1 (.exit 0 ("123")) .absent
        (.ok ("---\nmodified: 2024-01-15\n---\n"))).map (Option.map Entry.modified) =
      .ok (some (JVal.num 1705276800)) ∧
    parse_date_to_timestamp (.int 42) = some (JVal.num 42) := by
  constructor
  · obtain ⟨e, he, hm⟩ := c6_modified_override.1 [("d.md")] 1 0 ("123")
      ("---\nmodified: 2024-01-15\n---\n") (.str ("2024-01-15")) (by decide) (by decide)
      (by decide)
    rw [he]
    simp only [Except.map, Option.map]
    rw [hm]
    rfl
  · exact c6_modified_override.2.1 42

/-- C7: a truthy `.keys` sidecar containing `title` fixes the entry title,
for every read outcome (the file content is never consulted). -/
theorem c7_sidecar_title (p : PyPath) (sz : Nat) (kvs : List (String × JVal))
    (t : JVal) (c : Int) (o : String) (r : ReadOutcome)
    (ht : jLookup kvs ("title") = some t)
    (hext : EXTENSIONS.contains (sToLower (pySuffix (nameOf p))) = true)
    (hhid : p.any (fun part => sStartsWith part (".")) = false) :
    ∃ e, process_file p sz (.exit c o) (.object kvs) r = .ok (some e) ∧ e.title = t := by
  have hne : kvs ≠ [] := by
    intro h
    subst h
    simp [jLookup] at ht
  refine ⟨_, process_file_keys_reduce p sz c o kvs r hext hhid hne, ?_⟩
  rw [applyKeys_title, ht]
  rfl

/-- C7 witness: the sidecar title wins even for undecodable content. -/
theorem c7_witness :
    ∃ e, process_file [("x.enc")] 8 (.exit 1 (""))
        (.object [(("title"), JVal.str ("Cipher")), (("algorithm"), JVal.str ("aes"))])
        .decodeError = .ok (some e) ∧ e.title = JVal.str ("Cipher") :=
  c7_sidecar_title [("x.enc")] 8
    [(("title"), JVal.str ("Cipher")), (("algorithm"), JVal.str ("aes"))]
    (JVal.str ("Cipher")) 1 ("") .decodeError rfl (by decide) (by decide)

/-- C8: a directory entry is produced iff the descriptor exists and parses to
a non-empty object; for the root (`relative_to` gives `"."`) the path becomes
`""` and the title falls back to `Home` when the descriptor has no title. -/
theorem c8_directory_descriptor :
    (∀ (relRaw dirName : String) (meta : MetaFileState),
      (process_directory_meta relRaw dirName meta).isSome ↔
        ∃ kvs, meta = MetaFileState.object kvs ∧ kvs ≠ []) ∧
    (∀ (dirName : String) (kvs : List (String × JVal)) (e : DirEntry),
      process_directory_meta (".") dirName (.object kvs) = some e →
      e.path = ("") ∧ (jLookup kvs ("title") = none → e.title = JVal.str ("Home"))) := by
  constructor
  · intro relRaw dirName meta
    cases meta with
    | absent =>
      simp [process_directory_meta, load_directory_meta]
    | unparseable =>
      simp [process_directory_meta, load_directory_meta]
    | object kvs =>
      cases kvs with
      | nil => simp [process_directory_meta, load_directory_meta]
      | cons a l =>
        simp only [process_directory_meta, load_directory_meta, List.isEmpty_cons,
          Bool.false_eq_true, if_false, Option.isSome_some, true_iff]
        exact ⟨a :: l, rfl, List.cons_ne_nil a l⟩
  · intro dirName kvs e h
    cases kvs with
    | nil => simp [process_directory_meta, load_directory_meta] at h
    | cons a l =>
      simp only [process_directory_meta, load_directory_meta, List.isEmpty_cons,
        Bool.false_eq_true, if_false, Option.some.injEq] at h
      subst h
      constructor
      · simp
      · intro hT
        simp [hT]

/-- C8 witness: a populated descriptor yields an entry (and an absent one
does not, via the same iff); the root entry has path `""` and title `Home`. -/
theorem c8_witness :
    ((process_directory_meta ("sub") ("sub")
        (MetaFileState.object [(("x"), JVal.num 1)])).isSome ↔
      ∃ kvs, MetaFileState.object [(("x"), JVal.num 1)] = MetaFileState.object kvs ∧
        kvs ≠ []) ∧
    ({ path := (""), title := JVal.str ("Home"), tags := JVal.arr [],
       description := JVal.null, icon := JVal.null, thumbnail := JVal.null : DirEntry}.path
        = ("") ∧
      (jLookup [(("x"), JVal.num 1)] ("title") = none →
        ({ path := (""), title := JVal.str ("Home"), tags := JVal.arr [],
           description := JVal.null, icon := JVal.null,
           thumbnail := JVal.null : DirEntry}.title = JVal.str ("Home")))) :=
  ⟨c8_directory_descriptor.1 ("sub") ("sub") (MetaFileState.object [(("x"), JVal.num 1)]),
   c8_directory_descriptor.2 ("root") [(("x"), JVal.num 1)] _ rfl⟩

/-! ## C9: determinism of the pipeline -/

theorem sortedWalk_eq_of_perm (l1 l2 : List PyPath) (h : l1.Perm l2) :
    sortedWalk l1 = sortedWalk l2 :=
  List.eq_of_perm_of_sorted
    ((List.perm_insertionSort _ l1).trans (h.trans (List.perm_insertionSort _ l2).symm))
    (List.sorted_insertionSort _ l1) (List.sorted_insertionSort _ l2)

theorem collectFiles_listing_irrelevant (re : Bool) (rn : String) (rm : MetaFileState)
    (l1 l2 : List PyPath) (iF iD : PyPath → Bool) (s : PyPath → Nat)
    (g : PyPath → SubprocessOutcome) (k : PyPath → KeysFileState)
    (r : PyPath → ReadOutcome) (m : PyPath → MetaFileState) :
    ∀ w, collectFiles ⟨re, rn, rm, l1, iF, iD, s, g, k, r, m⟩ w =
      collectFiles ⟨re, rn, rm, l2, iF, iD, s, g, k, r, m⟩ w := by
  intro w
  induction w with
  | nil => rfl
  | cons p ps ih =>
    simp only [collectFiles]
    rw [ih]

/-- C9: the pipeline is a function of the observed tree and version-control
history alone; in particular, since the walk is sorted, the OS enumeration
order of `rglob` cannot influence the manifest: any permutation of the
listing produces the byte-identical run result. -/
theorem c9_deterministic (fs : FS) (l2 : List PyPath) (h : fs.listing.Perm l2) :
    runMain fs = runMain { fs with listing := l2 } := by
  obtain ⟨re, rn, rm, li, iF, iD, szf, gi, ke, rd, mt⟩ := fs
  replace h : li.Perm l2 := h
  show runMain ⟨re, rn, rm, li, iF, iD, szf, gi, ke, rd, mt⟩ =
    runMain ⟨re, rn, rm, l2, iF, iD, szf, gi, ke, rd, mt⟩
  unfold runMain
  dsimp only
  rw [sortedWalk_eq_of_perm l2 li h.symm]
  rw [collectFiles_listing_irrelevant re rn rm li l2 iF iD szf gi ke rd mt (sortedWalk li)]
  rfl

/-- A tiny concrete filesystem for the C9 witness. -/
def fsSample : FS :=
  { rootExists := true
    rootName := ("c")
    rootMeta := .absent
    listing := [[("b.md")], [("a.md")]]
    isFile := fun _ => true
    isDir := fun _ => false
    size := fun _ => 1
    git := fun _ => .exit 1 ("")
    keys := fun _ => .absent
    read := fun _ => .ok ("x")
    meta := fun _ => .absent }

/-- C9 witness: swapping the enumeration order leaves the output unchanged. -/
theorem c9_witness :
    runMain fsSample = runMain { fsSample with listing := [[("a.md")], [("b.md")]] } :=
  c9_deterministic fsSample [[("a.md")], [("b.md")]] (by decide)

/-! ## C10: case-insensitive extension handling -/

theorem mdBranch_ne_ok_none (e : Entry) (sfx : String) (r : ReadOutcome) :
    mdBranch e sfx r ≠ .ok none := by
  intro h
  unfold mdBranch at h
  by_cases hs : sfx = (".md")
  · rw [if_pos hs] at h
    cases r <;> simp at h
  · rw [if_neg hs] at h
    simp at h

/-- C10: eligibility is decided on the lower-cased suffix: `process_file`
skips a file (returns no entry without an error) exactly when the lower-cased
extension is outside the allowed set or a path component is hidden; a suffix
lower-casing to `.keys` is always skipped; and with readable content an
eligible file always yields an entry. -/
theorem c10_extension_case_insensitive (p : PyPath) (sz : Nat) (g : SubprocessOutcome)
    (k : KeysFileState) (r : ReadOutcome) :
    (process_file p sz g k r = .ok none ↔
      (EXTENSIONS.contains (sToLower (pySuffix (nameOf p))) = false ∨
        p.any (fun part => sStartsWith part (".")) = true)) ∧
    (sToLower (pySuffix (nameOf p)) = (".keys") → process_file p sz g k r = .ok none) ∧
    (∀ (c : Int) (o : String) (content : String),
      EXTENSIONS.contains (sToLower (pySuffix (nameOf p))) = true →
      p.any (fun part => sStartsWith part (".")) = false →
      ∃ e, process_file p sz (.exit c o) k (.ok content) = .ok (some e)) := by
  refine ⟨⟨?_, ?_⟩, ?_, ?_⟩
  · intro h
    cases hc : EXTENSIONS.contains (sToLower (pySuffix (nameOf p))) with
    | false => exact Or.inl rfl
    | true =>
      cases ha : p.any (fun part => sStartsWith part (".")) with
      | true => exact Or.inr rfl
      | false =>
        exfalso
        have hnk : sToLower (pySuffix (nameOf p)) ≠ (".keys") := by
          intro hx
          rw [hx] at hc
          exact absurd hc (by decide)
        unfold process_file at h
        rw [if_neg hnk, if_pos hc, ha, if_neg (by decide)] at h
        cases g with
        | toolMissing => simp [get_git_modified_time] at h
        | exit c o =>
          simp only [get_git_modified_time] at h
          cases k with
          | absent => exact mdBranch_ne_ok_none _ _ _ h
          | unparseable => exact mdBranch_ne_ok_none _ _ _ h
          | object kvs =>
            cases kvs with
            | nil =>
              simp only [load_keys_file, List.isEmpty_nil, if_true] at h
              exact mdBranch_ne_ok_none _ _ _ h
            | cons a l =>
              simp only [load_keys_file, List.isEmpty_cons, Bool.false_eq_true,
                if_false] at h
              simp at h
  · rintro (h | h)
    · by_cases hk : sToLower (pySuffix (nameOf p)) = (".keys")
      · unfold process_file
        rw [if_pos hk]
      · unfold process_file
        rw [if_neg hk, h, if_neg (by decide)]
    · by_cases hk : sToLower (pySuffix (nameOf p)) = (".keys")
      · unfold process_file
        rw [if_pos hk]
      · cases hc : EXTENSIONS.contains (sToLower (pySuffix (nameOf p))) with
        | false =>
          unfold process_file
          rw [if_neg hk, hc, if_neg (by decide)]
        | true =>
          unfold process_file
          rw [if_neg hk, if_pos hc, h]
          exact if_pos rfl
  · intro hk
    unfold process_file
    rw [if_pos hk]
  · intro c o content hc ha
    have hnk : sToLower (pySuffix (nameOf p)) ≠ (".keys") := by
      intro hx
      rw [hx] at hc
      exact absurd hc (by decide)
    unfold process_file
    rw [if_neg hnk, if_pos hc, ha, if_neg (by decide)]
    simp only [get_git_modified_time]
    cases k with
    | absent =>
      unfold mdBranch
      by_cases hs : sToLower (pySuffix (nameOf p)) = (".md")
      · rw [if_pos hs]
        exact ⟨_, rfl⟩
      · rw [if_neg hs]
        exact ⟨_, rfl⟩
    | unparseable =>
      unfold mdBranch
      by_cases hs : sToLower (pySuffix (nameOf p)) = (".md")
      · rw [if_pos hs]
        exact ⟨_, rfl⟩
      · rw [if_neg hs]
        exact ⟨_, rfl⟩
    | object kvs =>
      cases kvs with
      | nil =>
        simp only [load_keys_file, List.isEmpty_nil, if_true]
        unfold mdBranch
        by_cases hs : sToLower (pySuffix (nameOf p)) = (".md")
        · rw [if_pos hs]
          exact ⟨_, rfl⟩
        · rw [if_neg hs]
          exact ⟨_, rfl⟩
      | cons a l =>
        simp only [load_keys_file, List.isEmpty_cons, Bool.false_eq_true, if_false]
        exact ⟨_, rfl⟩

/-- C10 witness: `x.KEYS` is skipped; `a.txt` is outside the allowed set;
`pic.JPG` is included. -/
theorem c10_witness :
    process_file [("x.KEYS")] 1 (.exit 1 ("")) .absent .ioError = .ok none ∧
    process_file [("a.txt")] 1 (.exit 1 ("")) .absent .ioError = .ok none ∧
    ∃ e, process_file [("pic.JPG")] 1 (.exit 1 ("")) .absent (.ok ("")) = .ok (some e) :=
  ⟨(c10_extension_case_insensitive [("x.KEYS")] 1 (.exit 1 ("")) .absent
      .ioError).2.1 (by decide),
   (c10_extension_case_insensitive [("a.txt")] 1 (.exit 1 ("")) .absent
      .ioError).1.mpr (Or.inl (by decide)),
   (c10_extension_case_insensitive [("pic.JPG")] 1 (.exit 1 ("")) .absent
      (.ok (""))).2.2 1 ("") ("") (by decide) (by decide)⟩
